import Mathlib

set_option maxRecDepth 8192

/-!
# Verification of the vela-server persistence layer

A shallow embedding of the dual-dialect persistence engine of the
`cognifloyd/vela-server` repository: the worker-table schema manager with
its driver dispatch (`database/worker/table.go`), the hook count query
(`database/hook/count_repo.go`), the source setup validation
(`source/setup.go`), and — modelled from the specification where only
tests are available — the log/init query engine operations
(`GetLogForService`, `GetLogForInit`, `CreateLog`, `CreateInit`,
`CountInits`, `ListInits`, `CreateWorker`).
-/

set_option autoImplicit false

namespace Vela

/-! ## Constants from `github.com/go-vela/types/constants` -/

/-- Driver name for the Postgres database engine. -/
def DriverPostgres : String := "postgres"

/-- Driver name for the Sqlite database engine. -/
def DriverSqlite : String := "sqlite3"

/-- Driver name for the GitHub source system. -/
def DriverGithub : String := "github"

/-- Driver name for the GitLab source system. -/
def DriverGitlab : String := "gitlab"

/-- Table name for hooks. -/
def TableHook : String := "hooks"

/-! ## String helpers (embedding of Go `strings` functions) -/

/-- `charListHasPrefix pat cs` holds when `pat` is a prefix of `cs`. -/
def charListHasPrefix : List Char → List Char → Bool
  | [], _ => true
  | _ :: _, [] => false
  | p :: ps, c :: cs => p = c && charListHasPrefix ps cs

/-- `charListHasSub pat cs` holds when `pat` occurs as a contiguous
sublist of `cs`. -/
def charListHasSub (pat : List Char) : List Char → Bool
  | [] => charListHasPrefix pat []
  | c :: cs => charListHasPrefix pat (c :: cs) || charListHasSub pat cs

/-- Embedding of Go `strings.Contains`: `pat` occurs as a substring
of `s`. -/
def strContains (s pat : String) : Bool :=
  charListHasSub pat.data s.data

/-- Embedding of Go `strings.HasSuffix`: `s` ends with `pat`. -/
def strHasSuffix (s pat : String) : Bool :=
  charListHasPrefix pat.data.reverse s.data.reverse

/-! ## Schema manager: `database/worker/table.go` -/

/-- The literal Postgres DDL for the workers table
(`CreatePostgresTable` in `database/worker/table.go`). -/
def CreatePostgresTable : String :=
"
CREATE TABLE
IF NOT EXISTS
workers (
	id               SERIAL PRIMARY KEY,
	hostname         VARCHAR(250),
	address          VARCHAR(250),
	routes           VARCHAR(1000),
	active           BOOLEAN,
	last_checked_in  INTEGER,
	build_limit      INTEGER,
	UNIQUE(hostname)
);
"

/-- The literal Sqlite DDL for the workers table
(`CreateSqliteTable` in `database/worker/table.go`). -/
def CreateSqliteTable : String :=
"
CREATE TABLE
IF NOT EXISTS
workers (
	id              INTEGER PRIMARY KEY AUTOINCREMENT,
	hostname        TEXT,
	address         TEXT,
	routes          TEXT,
	active          BOOLEAN,
	last_checked_in	INTEGER,
	build_limit     INTEGER,
	UNIQUE(hostname)
);
"

/-- A worker row: id, hostname, address, routes, active,
last_checked_in, build_limit. -/
structure Worker where
  id : Int
  hostname : String
  address : String
  routes : String
  active : Bool
  last_checked_in : Int
  build_limit : Int
  deriving Repr, DecidableEq

/-- The state of the worker engine's backend: whether the workers table
has been created, and its rows. -/
structure WorkerDB where
  tableExists : Bool
  workers : List Worker
  deriving Repr, DecidableEq

/-- Semantics of executing a `CREATE TABLE` DDL text against the backend:
if the table already exists, the statement succeeds as a no-op only when
the DDL carries an `IF NOT EXISTS` guard, and errors otherwise; if the
table does not exist it is created. -/
def execCreateTable (ddl : String) (db : WorkerDB) : Except String WorkerDB :=
  if db.tableExists = true then
    if strContains ddl "IF NOT EXISTS" = true then .ok db
    else .error "table already exists"
  else .ok { db with tableExists := true }

/-- The driver dispatch of `CreateWorkerTable`: `DriverPostgres` selects
the Postgres DDL; `DriverSqlite` falls through to the `default` arm, which
selects the Sqlite DDL, as does every other driver string. -/
def selectWorkerTableDDL (driver : String) : String :=
  if driver = DriverPostgres then CreatePostgresTable
  else CreateSqliteTable

/-- `CreateWorkerTable` from `database/worker/table.go`: dispatch on the
driver name, then execute the selected DDL against the backend. -/
def CreateWorkerTable (driver : String) (db : WorkerDB) : Except String WorkerDB :=
  execCreateTable (selectWorkerTableDDL driver) db

/-- Modelled from the spec: the worker `Create` operation is not under
`src/` (only the schema is). Per §4.3 it inserts one row, assigning the
backend's auto-generated ID (creation order), and per §5 uniqueness of
`hostname` is delegated to the backend's `UNIQUE(hostname)` constraint:
exactly one `Create` of a duplicate hostname succeeds, the other fails
with a constraint-violation error and the table is unchanged. -/
def CreateWorker (table : List Worker) (w : Worker) : Except String (List Worker) :=
  if table.any (fun x => x.hostname = w.hostname) then
    .error "UNIQUE constraint failed: workers.hostname"
  else
    .ok (table ++ [{ w with id := Int.ofNat table.length + 1 }])

/-- Modelled from the spec: worker retrieval by hostname is not under
`src/`; per §4.3 a single-row get returns the row whose designated column
equals the argument, or a distinguishable not-found condition. -/
def GetWorkerForHostname (table : List Worker) (hostname : String) : Option Worker :=
  table.find? (fun x => x.hostname = hostname)

/-! ## Log entity and the `GetForParent` family -/

/-- A log row: id, build_id, repo_id and the four mutually-exclusive
parent foreign keys (unset ones default to zero), plus the byte-blob
data (`logs` table, §6 of the spec). -/
structure Log where
  id : Int
  build_id : Int
  repo_id : Int
  service_id : Int
  step_id : Int
  init_id : Int
  init_step_id : Int
  data : List Nat
  deriving Repr, DecidableEq

/-- A service parent entity (only the fields the log queries touch). -/
structure Service where
  id : Int
  repo_id : Int
  build_id : Int
  number : Int
  deriving Repr, DecidableEq

/-- An init entity: id, repo_id, build_id, number, reporter, name,
mimetype (`inits` table, §3 of the spec). -/
structure Init where
  id : Int
  repo_id : Int
  build_id : Int
  number : Int
  reporter : String
  name : String
  mimetype : String
  deriving Repr, DecidableEq

/-- Modelled from the spec: renders the single-row log query of §4.3 /
§6, `SELECT * FROM "logs" WHERE <parent>_id = ? LIMIT 1`, for a given
parent foreign-key column (Postgres placeholder style, as in the tests). -/
def logQueryForColumn (col : String) : String :=
  "SELECT * FROM \"logs\" WHERE " ++ col ++ " = $1 LIMIT 1"

/-- Modelled from the spec: the query text issued by `GetLogForService`,
whose implementation is not under `src/` (only its test is). -/
def getLogForServiceQuery : String := logQueryForColumn "service_id"

/-- Modelled from the spec: the query text issued by `GetLogForInit`,
whose implementation is not under `src/` (only its test is). -/
def getLogForInitQuery : String := logQueryForColumn "init_id"

/-- Modelled from the spec: `GetLogForService` is not under `src/` (only
its test is). Per §4.3 it returns the single log row whose `service_id`
column equals the service's ID (`LIMIT 1` over the table in natural row
order), or not-found when no row matches. -/
def GetLogForService (table : List Log) (s : Service) : Option Log :=
  table.find? (fun l => l.service_id = s.id)

/-- Modelled from the spec: `GetLogForInit` is not under `src/` (only its
test is). Per §4.3 it returns the single log row whose `init_id` column
equals the init's ID, or not-found when no row matches. -/
def GetLogForInit (table : List Log) (i : Init) : Option Log :=
  table.find? (fun l => l.init_id = i.id)

/-- Modelled from the spec: `CreateLog` is not under `src/` (only its
callers in tests are). Per §4.3 `Create` inserts one encoded row and
assigns the backend's auto-generated ID (creation order). -/
def CreateLog (table : List Log) (l : Log) : List Log :=
  table ++ [{ l with id := Int.ofNat table.length + 1 }]

/-! ## Init query engine -/

/-- Modelled from the spec: `CreateInit` is not under `src/` (only its
callers in tests are). Per §4.3 `Create` inserts one encoded row and
assigns the backend's auto-generated ID (creation order). -/
def CreateInit (table : List Init) (i : Init) : List Init :=
  table ++ [{ i with id := Int.ofNat table.length + 1 }]

/-- Modelled from the spec: `CountInits` is not under `src/` (only its
test is). Per §4.3 it is `SELECT count(*) FROM "inits"` with no scope
predicate: the scalar count of all rows. -/
def CountInits (table : List Init) : Int :=
  Int.ofNat table.length

/-- Modelled from the spec: `ListInits` is not under `src/` (only its
test is). Per §4.3 `List` is `SELECT * FROM "inits"` with no filter,
decoded in the backend's natural row order (ascending by primary key,
i.e. creation order). -/
def ListInits (table : List Init) : List Init :=
  table

/-! ## Hook count: `database/hook/count_repo.go` -/

/-- A hook row; queried primarily by `repo_id` for counting. -/
structure Hook where
  id : Int
  repo_id : Int
  deriving Repr, DecidableEq

/-- A repo entity (the fields `CountHooksForRepo` touches). -/
structure Repo where
  id : Int
  org : String
  name : String
  deriving Repr, DecidableEq

/-- SQL `count(*)` with a `WHERE` predicate: scans the rows, adding one
for each row satisfying the predicate. -/
def sqlCountWhere (p : Hook → Bool) : List Hook → Int
  | [] => 0
  | h :: t => (if p h then 1 else 0) + sqlCountWhere p t

/-- `CountHooksForRepo` from `database/hook/count_repo.go`: sends
`count(*)` over the hooks table with `WHERE repo_id = ?` bound to the
repo's ID, and returns the scalar together with any error from the query
surfaced verbatim. The backend argument is either the table's rows or a
failed query. -/
def CountHooksForRepo (backend : Except String (List Hook)) (r : Repo) :
    Except String Int :=
  match backend with
  | .error e => .error e
  | .ok rows => .ok (sqlCountWhere (fun h => h.repo_id = r.id) rows)

/-! ## Source setup: `source/setup.go` -/

/-- The `Setup` configuration for the source system
(`source/setup.go`). -/
structure Setup where
  driver : String
  address : String
  clientID : String
  clientSecret : String
  serverAddress : String
  statusContext : String
  webUIAddress : String
  deriving Repr, DecidableEq

/-- An opaque source service handle (the `Service` interface; only its
presence or absence matters here). -/
structure SourceService where
  dummy : Unit
  deriving Repr, DecidableEq

/-- `Setup.Gitlab` from `source/setup.go`: returns a nil service and an
unsupported-driver error, unconditionally. -/
def Setup.gitlab (_s : Setup) : Option SourceService × Option String :=
  (none, some ("unsupported source driver: " ++ DriverGitlab))

/-- `Setup.Validate` from `source/setup.go`: returns the first
configuration error in check order (empty driver; driver not github and
not gitlab; empty address; address without "://"; address with trailing
slash; empty client ID; empty client secret; empty status context), and
`none` when all checks pass. -/
def Setup.validate (s : Setup) : Option String :=
  if s.driver.length = 0 then
    some "no source driver provided"
  else if ¬ (s.driver = DriverGithub ∨ s.driver = DriverGitlab) then
    some ("invalid source driver provided: " ++ s.driver)
  else if s.address.length = 0 then
    some "no source address provided"
  else if strContains s.address "://" = false then
    some "source address must be fully qualified (<scheme>://<host>)"
  else if strHasSuffix s.address "/" = true then
    some "source address must not have trailing slash"
  else if s.clientID.length = 0 then
    some "no source client id provided"
  else if s.clientSecret.length = 0 then
    some "no source client secret provided"
  else if s.statusContext.length = 0 then
    some "no source status context provided"
  else
    none

/-! ## Helper lemmas -/

/-- Whatever the driver, the DDL selected for the workers table carries
the `IF NOT EXISTS` guard. -/
theorem selectWorkerTableDDL_guarded (driver : String) :
    strContains (selectWorkerTableDDL driver) "IF NOT EXISTS" = true := by
  by_cases hd : driver = DriverPostgres
  · simp only [selectWorkerTableDDL, if_pos hd]
    decide
  · simp only [selectWorkerTableDDL, if_neg hd]
    decide

/-- The scan-based SQL count agrees with filtering and taking the
length. -/
theorem sqlCountWhere_eq_filter_length (p : Hook → Bool) (rows : List Hook) :
    sqlCountWhere p rows = Int.ofNat (rows.filter p).length := by
  induction rows with
  | nil => rfl
  | cons h t ih =>
    rw [sqlCountWhere, List.filter_cons]
    by_cases hp : p h = true <;> simp [hp, ih]
    omega

/-- A string has length zero exactly when it is the empty string. -/
theorem strLengthZero (s : String) : s.length = 0 ↔ s = "" := by
  cases s with
  | mk data =>
    simp [String.length, List.length_eq_zero, String.ext_iff]

/-! ## Claim theorems -/

/-- Claim C1: `GetLogForService` issues
`SELECT * FROM "logs" WHERE service_id = $1 LIMIT 1` and
`GetLogForInit` issues `SELECT * FROM "logs" WHERE init_id = $1 LIMIT 1`;
each returns only a row whose own parent foreign-key column equals the
parent's ID — never a row matched via an unrelated foreign-key column
left at its zero default. -/
theorem getLogForParent_queries_own_column :
    getLogForServiceQuery = "SELECT * FROM \"logs\" WHERE service_id = $1 LIMIT 1"
    ∧ getLogForInitQuery = "SELECT * FROM \"logs\" WHERE init_id = $1 LIMIT 1"
    ∧ (∀ (table : List Log) (s : Service) (l : Log),
        GetLogForService table s = some l → l.service_id = s.id)
    ∧ (∀ (table : List Log) (i : Init) (l : Log),
        GetLogForInit table i = some l → l.init_id = i.id) := by
  refine ⟨rfl, rfl, ?_, ?_⟩
  · intro table s l h
    simpa using List.find?_some h
  · intro table i l h
    simpa using List.find?_some h

/-- Witness for claim C1: a concrete log table on which the service and
init lookups are evaluated, discharging the hypotheses. -/
theorem getLogForParent_queries_own_column_witness :
    (⟨1, 1, 1, 1, 0, 0, 0, []⟩ : Log).service_id = (⟨1, 1, 1, 1⟩ : Service).id
    ∧ (⟨1, 1, 1, 0, 0, 1, 0, []⟩ : Log).init_id
        = (⟨1, 1, 1, 1, "", "", ""⟩ : Init).id :=
  ⟨getLogForParent_queries_own_column.2.2.1
      [⟨1, 1, 1, 1, 0, 0, 0, []⟩] ⟨1, 1, 1, 1⟩ _ rfl,
   getLogForParent_queries_own_column.2.2.2
      [⟨1, 1, 1, 0, 0, 1, 0, []⟩] ⟨1, 1, 1, 1, "", "", ""⟩ _ rfl⟩

/-- Claim C2: the Postgres driver name selects the Postgres DDL; the
Sqlite driver name and every other string select the Sqlite DDL, and no
driver string ever makes `CreateWorkerTable` fail on account of the
driver name. -/
theorem createWorkerTable_driver_dispatch :
    selectWorkerTableDDL DriverPostgres = CreatePostgresTable
    ∧ selectWorkerTableDDL DriverSqlite = CreateSqliteTable
    ∧ (∀ driver : String, driver ≠ DriverPostgres →
        selectWorkerTableDDL driver = CreateSqliteTable)
    ∧ (∀ (driver : String) (db : WorkerDB),
        ∃ db', CreateWorkerTable driver db = .ok db') := by
  refine ⟨?_, ?_, ?_, ?_⟩
  · simp [selectWorkerTableDDL]
  · simp only [selectWorkerTableDDL]
    rw [if_neg (by decide)]
  · intro driver h
    simp only [selectWorkerTableDDL, if_neg h]
  · intro driver db
    cases hdb : db.tableExists
    · exact ⟨{ db with tableExists := true },
        by simp [CreateWorkerTable, execCreateTable, hdb]⟩
    · exact ⟨db,
        by simp [CreateWorkerTable, execCreateTable, hdb,
          selectWorkerTableDDL_guarded]⟩

/-- Witness for claim C2: an unrecognized driver string falls back to the
Sqlite DDL. -/
theorem createWorkerTable_driver_dispatch_witness :
    selectWorkerTableDDL "mysql" = CreateSqliteTable :=
  createWorkerTable_driver_dispatch.2.2.1 "mysql" (by decide)

/-- Claim C3: both dialects' DDL texts carry the
`CREATE TABLE IF NOT EXISTS` guard, and invoking `CreateWorkerTable`
twice in sequence never errors: the first call yields a state on which
the second call succeeds and leaves the state unchanged. -/
theorem createWorkerTable_idempotent :
    strContains CreatePostgresTable "IF NOT EXISTS" = true
    ∧ strContains CreateSqliteTable "IF NOT EXISTS" = true
    ∧ ∀ (driver : String) (db : WorkerDB), ∃ db',
        CreateWorkerTable driver db = .ok db'
        ∧ CreateWorkerTable driver db' = .ok db' := by
  refine ⟨by decide, by decide, ?_⟩
  intro driver db
  refine ⟨{ db with tableExists := true }, ?_, ?_⟩
  · cases hdb : db.tableExists
    · simp [CreateWorkerTable, execCreateTable, hdb]
    · have hdb' : db = { db with tableExists := true } := by
        cases db
        simp_all
      simp [CreateWorkerTable, execCreateTable, hdb,
        selectWorkerTableDDL_guarded, ← hdb']
  · simp [CreateWorkerTable, execCreateTable, selectWorkerTableDDL_guarded]

/-- Claim C4: both dialects declare `UNIQUE(hostname)` on the workers
table; creating a worker and then a second worker with the same hostname
makes the second `Create` fail with a constraint-violation error while
the first worker remains stored and retrievable by hostname. -/
theorem worker_hostname_unique :
    strContains CreatePostgresTable "UNIQUE(hostname)" = true
    ∧ strContains CreateSqliteTable "UNIQUE(hostname)" = true
    ∧ ∀ (w1 w2 : Worker) (t1 : List Worker),
        CreateWorker [] w1 = .ok t1 →
        w2.hostname = w1.hostname →
        (∃ e, CreateWorker t1 w2 = .error e)
        ∧ GetWorkerForHostname t1 w1.hostname = some { w1 with id := 1 } := by
  refine ⟨by decide, by decide, ?_⟩
  intro w1 w2 t1 hcreate hdup
  have ht1 : t1 = [{ w1 with id := 1 }] := by
    simpa [CreateWorker] using hcreate.symm
  subst ht1
  refine ⟨⟨"UNIQUE constraint failed: workers.hostname", ?_⟩, ?_⟩
  · simp [CreateWorker, hdup]
  · simp [GetWorkerForHostname]

/-- Witness for claim C4: concrete duplicate-hostname workers on which
the theorem is evaluated. -/
theorem worker_hostname_unique_witness :
    (∃ e, CreateWorker [⟨1, "worker_0", "", "", true, 0, 0⟩]
        ⟨0, "worker_0", "", "", false, 0, 0⟩ = .error e)
    ∧ GetWorkerForHostname [⟨1, "worker_0", "", "", true, 0, 0⟩]
        (Worker.hostname ⟨0, "worker_0", "", "", true, 0, 0⟩)
        = some ⟨1, "worker_0", "", "", true, 0, 0⟩ :=
  worker_hostname_unique.2.2
    ⟨0, "worker_0", "", "", true, 0, 0⟩
    ⟨0, "worker_0", "", "", false, 0, 0⟩
    [⟨1, "worker_0", "", "", true, 0, 0⟩] rfl rfl

/-- The first init of the concrete scenario of claim C5. -/
def initOne : Init :=
  ⟨1, 1, 1, 1, "Foobar Runtime", "foobar", "text/plain"⟩

/-- The second init of the concrete scenario of claim C5. -/
def initTwo : Init :=
  ⟨2, 1, 2, 2, "Foobar Runtime", "foobar", "text/plain"⟩

/-- Claim C5: after creating `initOne` (id 1, repo 1, build 1, number 1,
reporter "Foobar Runtime", name "foobar", mimetype "text/plain") and
`initTwo` (id 2, repo 1, build 2, number 2, same reporter/name/mimetype),
`CountInits` returns exactly 2 and `ListInits` returns exactly
`[initOne, initTwo]` in that order, every field equal to what was
created. -/
theorem countInits_listInits_scenario :
    CountInits (CreateInit (CreateInit [] initOne) initTwo) = 2
    ∧ ListInits (CreateInit (CreateInit [] initOne) initTwo)
        = [initOne, initTwo] := by
  exact ⟨rfl, rfl⟩

/-- The log of the concrete scenario of claim C6: owned by init 1, with
the empty byte sequence as data. -/
def logForInitOne : Log :=
  ⟨1, 1, 1, 0, 0, 1, 0, []⟩

/-- Claim C6: after creating a log with repo_id 1, build_id 1, init_id 1
and empty data, `GetLogForInit` on the init with id 1 returns that log —
not a not-found and not an error — and its data field is the empty byte
sequence. -/
theorem getLogForInit_empty_blob :
    GetLogForInit (CreateLog [] logForInitOne) ⟨1, 1, 1, 1, "", "", ""⟩
        = some logForInitOne
    ∧ logForInitOne.data = [] := by
  exact ⟨rfl, rfl⟩

/-- Claim C7: `CountHooksForRepo` returns the number of hook rows whose
`repo_id` equals the repo's ID, and surfaces any error from the query
verbatim. -/
theorem countHooksForRepo_counts_by_repo_id :
    (∀ (rows : List Hook) (r : Repo),
      CountHooksForRepo (.ok rows) r
        = .ok (Int.ofNat ((rows.filter fun h => h.repo_id = r.id).length)))
    ∧ ∀ (e : String) (r : Repo), CountHooksForRepo (.error e) r = .error e := by
  refine ⟨?_, fun e r => rfl⟩
  intro rows r
  simp only [CountHooksForRepo]
  rw [sqlCountWhere_eq_filter_length]

/-- Claim C8: `Setup.validate` returns an error exactly when the driver
is empty, the driver is neither the github nor the gitlab constant, the
address is empty, lacks a "://" scheme, or ends with a trailing slash,
or the client ID, client secret, or status context is empty; otherwise
it returns `none`. -/
theorem setup_validate_error_conditions (s : Setup) :
    (s.validate).isSome = true ↔
      (s.driver = ""
       ∨ (s.driver ≠ DriverGithub ∧ s.driver ≠ DriverGitlab)
       ∨ s.address = ""
       ∨ strContains s.address "://" = false
       ∨ strHasSuffix s.address "/" = true
       ∨ s.clientID = ""
       ∨ s.clientSecret = ""
       ∨ s.statusContext = "") := by
  unfold Setup.validate
  split_ifs with h1 h2 h3 h4 h5 h6 h7 h8 <;> simp_all [strLengthZero]
  all_goals tauto

/-- Claim C9: `Setup.gitlab` unconditionally returns a nil service and
an unsupported-driver error, yet `Setup.validate` accepts the gitlab
driver constant: a configuration can pass validation while construction
of its source service always fails. -/
theorem gitlab_always_unsupported :
    (∀ s : Setup,
      s.gitlab = (none, some ("unsupported source driver: " ++ DriverGitlab)))
    ∧ ∃ s : Setup, s.driver = DriverGitlab ∧ s.validate = none
        ∧ (s.gitlab).1 = none ∧ ((s.gitlab).2).isSome = true := by
  refine ⟨fun s => rfl,
    ⟨⟨DriverGitlab, "https://gitlab.com", "id", "secret", "", "ctx", ""⟩,
      rfl, by decide, rfl, rfl⟩⟩

/-- Claim C10: `Setup.validate` never inspects `serverAddress` or
`webUIAddress`: replacing them by any strings leaves the result
unchanged, so a setup that passes validation still passes with both
fields empty. -/
theorem validate_ignores_server_and_webui_address :
    (∀ (s : Setup) (sa wa : String),
      Setup.validate { s with serverAddress := sa, webUIAddress := wa }
        = s.validate)
    ∧ ∀ s : Setup, s.validate = none →
        Setup.validate { s with serverAddress := "", webUIAddress := "" }
          = none := by
  have h : ∀ (s : Setup) (sa wa : String),
      Setup.validate { s with serverAddress := sa, webUIAddress := wa }
        = s.validate := fun s sa wa => rfl
  exact ⟨h, fun s hs => (h s "" "").trans hs⟩

/-- Witness for claim C10: a concrete passing setup still validates with
both addresses blanked. -/
theorem validate_ignores_server_and_webui_address_witness :
    Setup.validate
      { (⟨"github", "https://github.com", "id", "secret", "srv", "ctx", "web"⟩
          : Setup) with serverAddress := "", webUIAddress := "" } = none :=
  validate_ignores_server_and_webui_address.2
    ⟨"github", "https://github.com", "id", "secret", "srv", "ctx", "web"⟩
    (by decide)

end Vela
